import Mathlib

/-!
Verification of the vector-datasource boundary-normalization core against its
natural-language specification.  The repository's visible source is the
integration-test fixture `integration-test/841-normalize-boundaries-kind.py`;
the core components it exercises (identity codec, tag classifier, tile
coordinate resolver, feature matcher) are specified in the design document and
modelled here from the spec's words.  The fixture corpus itself is embedded
verbatim as data.
-/

namespace VectorDatasource

/-- Modelled from the spec: the source-data category of an entity
(`way` vs `relation`), §3 "RawEntity"; the source repository's identity-codec
implementation is not under `src/` (only the fixture that exercises it is). -/
inductive EntityClass where
  | way
  | relation
deriving DecidableEq, Repr

/-- Modelled from the spec, §7: error taxonomy member for identity-codec
inputs out of domain. -/
inductive CodecError where
  | invalidId
deriving DecidableEq, Repr

/-- Largest magnitude representable as a signed 64-bit tile feature id. -/
def INT64_MAX : Nat := 2 ^ 63 - 1

/-- Modelled from the spec: a source id is valid when it is a positive
magnitude representable in the signed range after class encoding (§4.1:
`encode` fails with `InvalidIdError` if `sourceId` is not representable; the
sign bit is the two-way class discriminant, so a zero magnitude would be
sign-ambiguous and cannot round-trip). -/
def validSourceId (sourceId : Nat) : Prop :=
  1 ≤ sourceId ∧ sourceId ≤ INT64_MAX

instance (sourceId : Nat) : Decidable (validSourceId sourceId) := by
  unfold validSourceId
  infer_instance

/-- Modelled from the spec, §4.1: `encode(entityClass, sourceId) ->
TileFeatureId`, `id = +sourceId` for way-class entities and `id = -sourceId`
for relation-class entities (§3), failing with `InvalidIdError` outside the
valid domain. -/
def encode (c : EntityClass) (sourceId : Nat) : Except CodecError Int :=
  if 1 ≤ sourceId ∧ sourceId ≤ INT64_MAX then
    match c with
    | .way => .ok ((sourceId : Int))
    | .relation => .ok (-((sourceId : Int)))
  else
    .error .invalidId

/-- Modelled from the spec, §4.1: `decode(TileFeatureId) -> (entityClass,
sourceId)`, reading the sign as the class discriminant; a zero id carries no
class information and is rejected. -/
def decode (id : Int) : Except CodecError (EntityClass × Nat) :=
  if 0 < id then .ok (.way, id.toNat)
  else if id < 0 then .ok (.relation, (-id).toNat)
  else .error .invalidId

/-- C1: Identity codec round-trip: for every entity-class `c` in
{way, relation} and every valid sourceId, `decode (encode c sourceId)`
returns exactly `(c, sourceId)`; `decode` is a left inverse of `encode` on
the whole valid input domain. -/
theorem decode_encode_roundtrip (c : EntityClass) (sourceId : Nat)
    (h : validSourceId sourceId) (i : Int) (henc : encode c sourceId = .ok i) :
    decode i = .ok (c, sourceId) := by
  obtain ⟨h1, _⟩ := h
  cases c <;>
    simp only [encode, if_pos (And.intro h1 ‹sourceId ≤ INT64_MAX›),
      Except.ok.injEq] at henc <;>
    subst henc <;>
    simp [decode, Int.ofNat_pos, Nat.lt_of_lt_of_le Nat.zero_lt_one h1,
      Int.lt_iff_add_one_le]

/-- Witness for C1: the fixture way id 174550914 and relation id 161991 both
round-trip through the codec. -/
theorem decode_encode_roundtrip_witness :
    decode 174550914 = .ok (.way, 174550914) ∧
      decode (-161991) = .ok (.relation, 161991) :=
  ⟨decode_encode_roundtrip .way 174550914 (by decide) 174550914 rfl,
   decode_encode_roundtrip .relation 161991 (by decide) (-161991) rfl⟩

/-- C2: Sign-encoded identity invariant: `encode` yields `+sourceId` for
way-class entities and `-sourceId` for relation-class entities, and is
injective on entities whose source ids are disjoint in magnitude across the
two classes (the external precondition): no two distinct entities share a
tile feature id. -/
theorem encode_sign_invariant_injective (c₁ c₂ : EntityClass) (s₁ s₂ : Nat)
    (h₁ : validSourceId s₁) (h₂ : validSourceId s₂)
    (hdisj : c₁ ≠ c₂ → s₁ ≠ s₂) :
    encode .way s₁ = .ok ((s₁ : Int)) ∧
      encode .relation s₁ = .ok (-((s₁ : Int))) ∧
      ((c₁, s₁) ≠ (c₂, s₂) → encode c₁ s₁ ≠ encode c₂ s₂) := by
  obtain ⟨h₁l, h₁r⟩ := h₁
  obtain ⟨h₂l, h₂r⟩ := h₂
  refine ⟨by simp [encode, h₁l, h₁r], by simp [encode, h₁l, h₁r], ?_⟩
  intro hne heq
  cases c₁ <;> cases c₂
  case way.way =>
    simp only [encode, if_pos (And.intro h₁l h₁r), if_pos (And.intro h₂l h₂r),
      Except.ok.injEq] at heq
    exact hne (by rw [Nat.cast_injective heq])
  case way.relation =>
    simp only [encode, if_pos (And.intro h₁l h₁r), if_pos (And.intro h₂l h₂r),
      Except.ok.injEq] at heq
    omega
  case relation.way =>
    simp only [encode, if_pos (And.intro h₁l h₁r), if_pos (And.intro h₂l h₂r),
      Except.ok.injEq] at heq
    omega
  case relation.relation =>
    simp only [encode, if_pos (And.intro h₁l h₁r), if_pos (And.intro h₂l h₂r),
      Except.ok.injEq, neg_inj] at heq
    exact hne (by rw [Nat.cast_injective heq])

/-- Witness for C2: the fixture's way 42298798 encodes to +42298798, relation
161991 encodes to -161991, and the two encodings differ. -/
theorem encode_sign_invariant_injective_witness :
    encode .way 42298798 = .ok (((42298798 : Nat) : Int)) ∧
      encode .relation 42298798 = .ok (-(((42298798 : Nat) : Int))) ∧
      ((EntityClass.way, 42298798) ≠ (EntityClass.relation, 161991) →
        encode .way 42298798 ≠ encode .relation 161991) :=
  encode_sign_invariant_injective .way .relation 42298798 161991
    (by decide) (by decide) (fun _ => by decide)

/-- Modelled from the spec, §3: the closed `BoundaryKind` enumeration. -/
inductive BoundaryKind where
  | country
  | region
  | macroregion
  | county
  | locality
  | aboriginal_lands
  | disputed
  | indefinite
  | indeterminate
  | lease_limit
  | line_of_control
  | overlay_limit
deriving DecidableEq, Repr

/-- A raw tag set: mapping of tag-key to tag-value, both strings (§3). -/
abbrev Tags := List (String × String)

/-- Modelled from the spec, §3: a `ClassificationRule` is an ordered tuple of
a predicate over the tag set, a resulting `BoundaryKind` and a resulting
`KindDetail` (small non-negative integer). -/
structure ClassificationRule where
  pred : Tags → Bool
  kind : BoundaryKind
  detail : Nat

/-- Modelled from the spec, §7: error raised when no classification rule
matches a tag set. -/
inductive UnclassifiedError where
  | unclassified
deriving DecidableEq, Repr

/-- Modelled from the spec, §4.2: `classify` evaluates the ordered rule list
and returns the result of the first rule whose predicate matches `tags`,
failing with `UnclassifiedError` when no rule matches.  The classifier
implementation is not under `src/`; this is the generic first-match engine
the spec prescribes (§9), parametric in the hand-curated rule list. -/
def classify (rules : List ClassificationRule) (tags : Tags) :
    Except UnclassifiedError (BoundaryKind × Nat) :=
  match rules with
  | [] => .error .unclassified
  | r :: rest => if r.pred tags then .ok (r.kind, r.detail) else classify rest tags

/-- C3: First-match-wins classification: when the rule list splits as
`before ++ r :: after` with no rule of `before` matching and `r` matching,
`classify` returns `r`'s result — the earliest matching rule wins, regardless
of what later rules (e.g. a generic country fallback after a specific
disputed rule) would say. -/
theorem classify_first_match (before after : List ClassificationRule)
    (r : ClassificationRule) (tags : Tags)
    (hbefore : ∀ r' ∈ before, r'.pred tags = false)
    (hr : r.pred tags = true) :
    classify (before ++ r :: after) tags = .ok (r.kind, r.detail) := by
  induction before with
  | nil => simp [classify, hr]
  | cons b rest ih =>
    have hb : b.pred tags = false := hbefore b (List.mem_cons_self b rest)
    simp only [List.cons_append, classify, hb, Bool.false_eq_true, if_false]
    exact ih fun r' hmem => hbefore r' (List.mem_cons_of_mem b hmem)

/-- A tag set carrying both a disputed marker and country-like tags, as in the
spec's rule-ordering example (§4.2). -/
def disputedCountryTags : Tags :=
  [("disputed", "yes"), ("boundary", "administrative"), ("admin_level", "2")]

/-- Illustrative two-rule list in the spec's curated order: the specific
disputed rule comes before the generic country rule. -/
def disputedThenCountryRules : List ClassificationRule :=
  [⟨fun ts => ts.any fun kv => kv.1 == "disputed", .disputed, 2⟩,
   ⟨fun ts => ts.any fun kv => kv.1 == "boundary", .country, 2⟩]

/-- Witness for C3: on a tag set matching both the disputed rule and the later
generic country rule, `classify` returns the earlier disputed rule's result. -/
theorem classify_first_match_witness :
    classify disputedThenCountryRules disputedCountryTags =
      .ok (.disputed, 2) := by
  have h := classify_first_match []
    [⟨fun ts => ts.any fun kv => kv.1 == "boundary", .country, 2⟩]
    ⟨fun ts => ts.any fun kv => kv.1 == "disputed", .disputed, 2⟩
    disputedCountryTags (by intro r' h'; cases h') (by rfl)
  simpa [disputedThenCountryRules, disputedCountryTags] using h

/-- C4: Classification error surfacing: `classify` returns
`UnclassifiedError` exactly when no rule in the list matches the tags; it
never returns a default kind in that case, and a matching rule always yields
a result rather than an error. -/
theorem classify_error_iff_no_match (rules : List ClassificationRule)
    (tags : Tags) :
    classify rules tags = .error .unclassified ↔
      ∀ r ∈ rules, r.pred tags = false := by
  induction rules with
  | nil => simp [classify]
  | cons r rest ih =>
    by_cases hp : r.pred tags
    · simp [classify, hp]
    · simp only [classify, hp, if_false, Bool.false_eq_true, ih,
        List.mem_cons, forall_eq_or_imp]
      exact ⟨fun h => ⟨by simp, h⟩, fun h => h.2⟩

/-- Witness for C4: the empty tag set matches no rule of the illustrative
list, so `classify` surfaces `UnclassifiedError`; conversely the disputed
tag set matches a rule, so no error is returned. -/
theorem classify_error_iff_no_match_witness :
    classify disputedThenCountryRules [] = .error .unclassified ∧
      classify disputedThenCountryRules disputedCountryTags ≠
        .error .unclassified :=
  ⟨(classify_error_iff_no_match disputedThenCountryRules []).mpr
      (by intro r h; fin_cases h <;> rfl),
   fun h => by
     have := (classify_error_iff_no_match disputedThenCountryRules
       disputedCountryTags).mp h
     exact absurd (this _ (List.mem_cons_self _ _)) (by decide)⟩

/-- Modelled from the spec, §4.3: the resolver's result handle designating
the backing data source — a fine-grained source at high zoom, a coarse
reference source at low zoom. -/
inductive SourceHandle where
  | fineGrained
  | coarseReference
deriving DecidableEq, Repr

/-- Modelled from the spec, §7: error raised for a tile coordinate outside
the valid quad-tree bounds. -/
inductive OutOfRangeError where
  | outOfRange
deriving DecidableEq, Repr

/-- Modelled from the spec, §4.3: the single configured zoom threshold
separating the coarse reference band from the fine-grained band; the spec
observes the fine-grained source at zoom ≥ 10 and the coarse reference
source at zoom ≤ 7 in the fixtures. -/
def sourceZoomThreshold : Int := 10

/-- Validity of a tile coordinate: `0 ≤ x, y < 2^zoom` with `zoom ≥ 0`
(§3 "TileCoordinate"). -/
def inBounds (zoom x y : Int) : Bool :=
  0 ≤ zoom && 0 ≤ x && 0 ≤ y && x < 2 ^ zoom.toNat && y < 2 ^ zoom.toNat

/-- Modelled from the spec, §4.3: `resolve(zoom, x, y) -> SourceHandle`,
validating `0 ≤ x, y < 2^zoom` (else `OutOfRangeError`) and selecting the
source by comparing `zoom` against the single configured threshold.  The
resolver implementation is not under `src/`. -/
def resolve (zoom x y : Int) : Except OutOfRangeError SourceHandle :=
  if inBounds zoom x y then
    if sourceZoomThreshold ≤ zoom then .ok .fineGrained
    else .ok .coarseReference
  else
    .error .outOfRange

/-- C5: Coordinate bounds checking: `resolve` fails with `OutOfRangeError`
whenever `zoom`, `x` or `y` is negative or `x` or `y` reaches `2^zoom`, and
succeeds (returns a `SourceHandle`) on every coordinate with
`0 ≤ x < 2^zoom` and `0 ≤ y < 2^zoom`. -/
theorem resolve_bounds (zoom x y : Int) :
    ((zoom < 0 ∨ x < 0 ∨ y < 0 ∨ (2 : Int) ^ zoom.toNat ≤ x ∨
        (2 : Int) ^ zoom.toNat ≤ y) →
      resolve zoom x y = .error .outOfRange) ∧
    ((0 ≤ zoom ∧ 0 ≤ x ∧ x < 2 ^ zoom.toNat ∧ 0 ≤ y ∧ y < 2 ^ zoom.toNat) →
      (resolve zoom x y).isOk = true) := by
  constructor
  · intro h
    have hb : inBounds zoom x y = false := by
      simp only [inBounds, Bool.and_eq_false_iff, decide_eq_false_iff_not,
        not_le, not_lt]
      omega
    simp [resolve, hb]
  · intro h
    have hb : inBounds zoom x y = true := by
      simp only [inBounds, Bool.and_eq_true, decide_eq_true_eq]
      omega
    by_cases ht : sourceZoomThreshold ≤ zoom <;> simp [resolve, hb, ht, Except.isOk, Except.toBool]

/-- Witness for C5: the fixture coordinate (16, 10237, 24570) is in range and
resolves successfully, while x = 2^16 at zoom 16 is rejected. -/
theorem resolve_bounds_witness :
    (resolve 16 65536 24570 = .error .outOfRange) ∧
      (resolve 16 10237 24570).isOk = true :=
  ⟨(resolve_bounds 16 65536 24570).1 (by decide),
   (resolve_bounds 16 10237 24570).2 (by decide)⟩

/-- C6: Zoom-band source switching: on every in-range coordinate `resolve`
selects the source purely by comparing `zoom` with the single configured
threshold — fine-grained iff `zoom` is at or above it — so zoom 16 routes to
the fine-grained source and zoom 7 to the coarse reference source. -/
theorem resolve_zoom_band (zoom x y : Int) (h : inBounds zoom x y = true) :
    (resolve zoom x y =
        .ok (if sourceZoomThreshold ≤ zoom then .fineGrained
          else .coarseReference)) ∧
      (zoom = 16 → resolve zoom x y = .ok .fineGrained) ∧
      (zoom = 7 → resolve zoom x y = .ok .coarseReference) := by
  refine ⟨by by_cases ht : sourceZoomThreshold ≤ zoom <;> simp [resolve, h, ht],
    ?_, ?_⟩
  · rintro rfl
    simp [resolve, h, sourceZoomThreshold]
  · rintro rfl
    simp [resolve, h, sourceZoomThreshold]

/-- Witness for C6: the fixture's zoom-16 coordinate (16, 10417, 25370)
routes to the fine-grained source and the zoom-7 coordinate (7, 75, 70)
routes to the coarse reference source. -/
theorem resolve_zoom_band_witness :
    resolve 16 10417 25370 = .ok .fineGrained ∧
      resolve 7 75 70 = .ok .coarseReference :=
  ⟨(resolve_zoom_band 16 10417 25370 (by decide)).2.1 rfl,
   (resolve_zoom_band 7 75 70 (by decide)).2.2 rfl⟩

/-- A feature property value on the wire: a string or a native signed
integer (§3 "Feature": property map `string key → string|number value`). -/
inductive PropValue where
  | str (s : String)
  | int (n : Int)
deriving DecidableEq, Repr

/-- A feature property map: string keys to wire values. -/
abbrev PropMap := List (String × PropValue)

/-- Modelled from the spec, §3: a decoded tile feature — a signed
`TileFeatureId` and a property map (geometry is opaque and out of scope for
matching). -/
structure Feature where
  fid : Int
  props : PropMap
deriving DecidableEq, Repr

/-- Modelled from the spec, §3: a layer is a name plus an ordered sequence of
features. -/
structure Layer where
  name : String
  features : List Feature
deriving DecidableEq, Repr

/-- First-entry lookup of a key in a property map. -/
def lookupProp (ps : PropMap) (k : String) : Option PropValue :=
  (List.find? (fun kv => kv.1 == k) ps).map (fun kv => kv.2)

/-- Modelled from the spec, §4.5 and §7: the assertion outcome — `Pass`, a
property-mismatch `Fail` carrying the expected-vs-actual diff, an
id-not-found `Fail` carrying the ids present in the layer,
`LayerNotFoundError`, or `AmbiguousFeatureError` listing all candidates. -/
inductive AssertResult where
  | pass
  | failMismatch (diff : List (String × PropValue × Option PropValue))
  | failNotFound (presentIds : List Int)
  | layerNotFound
  | ambiguousFeature (candidates : List Feature)
deriving DecidableEq, Repr

/-- The expected-vs-actual diff: every expected key whose value is missing or
differs in the actual map, with its expected and actual values. -/
def propDiff (expected actual : PropMap) :
    List (String × PropValue × Option PropValue) :=
  List.map (fun kv => (kv.1, kv.2, lookupProp actual kv.1))
    (List.filter (fun kv => !(lookupProp actual kv.1 == some kv.2)) expected)

/-- Modelled from the spec, §4.5: subset match of the expected properties
against one feature — `Pass` when every expected (key, value) pair is present
with an equal value, otherwise `Fail` with the diff; properties of the
feature not mentioned in the expectation are ignored. -/
def matchFeature (f : Feature) (expectedProps : PropMap) : AssertResult :=
  if (propDiff expectedProps f.props).isEmpty then .pass
  else .failMismatch (propDiff expectedProps f.props)

/-- Select the named layer from a decoded tile. -/
def findLayer (tile : List Layer) (layerName : String) : Option Layer :=
  List.find? (fun l => l.name == layerName) tile

/-- Modelled from the spec, §4.5: the assertion runner over an already
decoded tile (the binary tile codec and external fetch are out of scope):
select the named layer, filter its features by the expected id, then either
report the id as missing, match the unique candidate, or fail as ambiguous
listing all candidates.  The runner implementation is not under `src/`. -/
def assertHasFeature (tile : List Layer) (layerName : String)
    (expectedId : Int) (expectedProps : PropMap) : AssertResult :=
  match findLayer tile layerName with
  | none => .layerNotFound
  | some l =>
    match List.filter (fun f => f.fid == expectedId) l.features with
    | [] => .failNotFound (List.map (fun f => f.fid) l.features)
    | [f] => matchFeature f expectedProps
    | f₁ :: f₂ :: rest => .ambiguousFeature (f₁ :: f₂ :: rest)

/-- The diff of an expected map against an actual map is empty exactly when
every expected pair is present with an equal value. -/
theorem propDiff_eq_nil_iff (expected actual : PropMap) :
    propDiff expected actual = [] ↔
      ∀ kv ∈ expected, lookupProp actual kv.1 = some kv.2 := by
  simp [propDiff, List.map_eq_nil_iff, List.filter_eq_nil_iff]

/-- C7: Subset-match semantics of `assertHasFeature`: when the unique feature
with the expected id is found, the result is `Pass` iff every (key, value)
pair of the expected properties is present with an equal value in the
feature's property map — extra feature properties are ignored — and any
expected key whose actual value is missing or differs makes the result a
property-mismatch `Fail` whose diff reports that key. -/
theorem assertHasFeature_subset_match (tile : List Layer) (layerName : String)
    (expectedId : Int) (expectedProps : PropMap) (l : Layer) (f : Feature)
    (hl : findLayer tile layerName = some l)
    (hf : List.filter (fun f' => f'.fid == expectedId) l.features = [f]) :
    (assertHasFeature tile layerName expectedId expectedProps = .pass ↔
      ∀ kv ∈ expectedProps, lookupProp f.props kv.1 = some kv.2) ∧
    (∀ kv ∈ expectedProps, lookupProp f.props kv.1 ≠ some kv.2 →
      assertHasFeature tile layerName expectedId expectedProps =
          .failMismatch (propDiff expectedProps f.props) ∧
        kv.1 ∈ List.map (fun e => e.1) (propDiff expectedProps f.props)) := by
  have hrun : assertHasFeature tile layerName expectedId expectedProps =
      matchFeature f expectedProps := by
    simp [assertHasFeature, hl, hf]
  constructor
  · rw [hrun]
    unfold matchFeature
    by_cases hd : propDiff expectedProps f.props = []
    · simp only [hd, List.isEmpty_nil, if_true]
      exact ⟨fun _ => (propDiff_eq_nil_iff _ _).mp hd, fun _ => trivial⟩
    · rw [if_neg (by simpa [List.isEmpty_iff] using hd)]
      constructor
      · intro h
        exact absurd h (by simp)
      · intro h
        exact absurd ((propDiff_eq_nil_iff _ _).mpr h) hd
  · intro kv hmem hne
    have hfilter : kv ∈ List.filter
        (fun kv' => !(lookupProp f.props kv'.1 == some kv'.2)) expectedProps :=
      List.mem_filter.mpr ⟨hmem, by simpa using hne⟩
    have hdmem : (kv.1, kv.2, lookupProp f.props kv.1) ∈
        propDiff expectedProps f.props := List.mem_map_of_mem _ hfilter
    have hdne : propDiff expectedProps f.props ≠ [] :=
      fun h => by simp [h] at hdmem
    refine ⟨?_, ?_⟩
    · rw [hrun]
      unfold matchFeature
      rw [if_neg (by simpa [List.isEmpty_iff] using hdne)]
    · exact List.mem_map.mpr ⟨_, hdmem, rfl⟩

/-- The fixture's United States way feature, carrying one extra property
beyond the fixture's expectation. -/
def demoFeature : Feature :=
  ⟨42298798,
   [("id", .int 42298798), ("kind", .str "country"),
    ("kind_detail", .str "2"), ("name", .str "United States")]⟩

/-- A demonstration tile holding the boundaries layer with the demonstration
feature. -/
def demoTile : List Layer :=
  [⟨"boundaries", [demoFeature]⟩]

/-- Witness for C7: on the demonstration tile, an expectation that is a
strict subset of the feature's properties passes, and an expectation with a
differing kind fails with that key in the diff. -/
theorem assertHasFeature_subset_match_witness :
    (assertHasFeature demoTile "boundaries" 42298798
        [("kind", .str "country"), ("kind_detail", .str "2")] = .pass) ∧
      (assertHasFeature demoTile "boundaries" 42298798
          [("kind", .str "region")] =
        .failMismatch [("kind", .str "region", some (.str "country"))] ∧
        "kind" ∈ List.map (fun e => e.1)
          [(("kind" : String), PropValue.str "region",
            some (PropValue.str "country"))]) := by
  constructor
  · exact (assertHasFeature_subset_match demoTile "boundaries" 42298798
      [("kind", .str "country"), ("kind_detail", .str "2")]
      ⟨"boundaries", [demoFeature]⟩ demoFeature
      (by decide) (by decide)).1.mpr (by decide)
  · have h := (assertHasFeature_subset_match demoTile "boundaries" 42298798
      [("kind", .str "region")]
      ⟨"boundaries", [demoFeature]⟩ demoFeature
      (by decide) (by decide)).2 ("kind", .str "region") (by decide) (by decide)
    exact ⟨by simp only [propDiff, demoFeature] at h; exact h.1, by decide⟩

/-- C8: Ambiguity detection: when more than one feature of the selected layer
carries the expected id, `assertHasFeature` fails with the ambiguous-feature
error listing exactly the candidate features sharing that id; it never
returns `Pass` or a property mismatch by silently picking one of them. -/
theorem assertHasFeature_ambiguous (tile : List Layer) (layerName : String)
    (expectedId : Int) (expectedProps : PropMap) (l : Layer)
    (hl : findLayer tile layerName = some l)
    (hcount :
      2 ≤ (List.filter (fun f => f.fid == expectedId) l.features).length) :
    assertHasFeature tile layerName expectedId expectedProps =
      .ambiguousFeature (List.filter (fun f => f.fid == expectedId)
        l.features) := by
  rcases hfs : List.filter (fun f => f.fid == expectedId) l.features with
    _ | ⟨f₁, _ | ⟨f₂, rest⟩⟩
  · rw [hfs] at hcount
    exact absurd hcount (by simp)
  · rw [hfs] at hcount
    exact absurd hcount (by simp)
  · simp [assertHasFeature, hl, hfs]

/-- A degenerate tile whose boundaries layer holds two distinct features
sharing the id 7. -/
def duplicateIdTile : List Layer :=
  [⟨"boundaries",
    [⟨7, [("kind", .str "country")]⟩, ⟨7, [("kind", .str "region")]⟩]⟩]

/-- Witness for C8: on the degenerate tile, the assertion fails with the
ambiguous-feature error listing both candidates. -/
theorem assertHasFeature_ambiguous_witness :
    assertHasFeature duplicateIdTile "boundaries" 7 [("kind", .str "country")] =
      .ambiguousFeature
        [⟨7, [("kind", .str "country")]⟩, ⟨7, [("kind", .str "region")]⟩] := by
  have h := assertHasFeature_ambiguous duplicateIdTile "boundaries" 7
    [("kind", .str "country")]
    ⟨"boundaries",
      [⟨7, [("kind", .str "country")]⟩, ⟨7, [("kind", .str "region")]⟩]⟩
    rfl (by decide)
  simpa using h

/-- One `assert_has_feature` call of the fixture file: tile coordinate,
layer name and expected property map (§3 "ExpectedFeature"). -/
structure FixtureAssertion where
  zoom : Int
  x : Int
  y : Int
  layer : String
  props : PropMap
deriving DecidableEq, Repr

/-- The fixture corpus of `integration-test/841-normalize-boundaries-kind.py`,
embedded verbatim: every `assert_has_feature` call in file order. -/
def fixtureAssertions : List FixtureAssertion :=
  [⟨16, 10237, 24570, "boundaries",
    [("id", .int 174550914), ("kind", .str "aboriginal_lands"),
     ("kind_detail", .str "3")]⟩,
   ⟨16, 10417, 25370, "boundaries",
    [("id", .int 42298798), ("kind", .str "country"),
     ("kind_detail", .str "2")]⟩,
   ⟨16, 12553, 24147, "boundaries",
    [("id", .int (-161991)), ("kind", .str "region"),
     ("kind_detail", .str "4")]⟩,
   ⟨16, 10484, 25346, "boundaries",
    [("id", .int 395754575), ("kind", .str "county"),
     ("kind_detail", .str "6")]⟩,
   ⟨16, 10487, 25355, "boundaries",
    [("id", .int (-2834528)), ("kind", .str "locality"),
     ("kind_detail", .str "8")]⟩,
   ⟨7, 75, 70, "boundaries",
    [("id", .int 613), ("kind", .str "region"), ("kind_detail", .str "4")]⟩,
   ⟨7, 101, 56, "boundaries",
    [("id", .int 694), ("kind", .str "region"), ("kind_detail", .str "4")]⟩,
   ⟨7, 26, 52, "boundaries",
    [("id", .int 1178), ("kind", .str "region"), ("kind_detail", .str "4")]⟩,
   ⟨7, 99, 57, "boundaries",
    [("id", .int 1232), ("kind", .str "macroregion"),
     ("kind_detail", .str "3")]⟩,
   ⟨7, 39, 71, "boundaries",
    [("id", .int 20), ("kind", .str "disputed"), ("kind_detail", .str "2")]⟩,
   ⟨7, 20, 44, "boundaries",
    [("id", .int 1), ("kind", .str "indefinite"), ("kind_detail", .str "2")]⟩,
   ⟨7, 91, 50, "boundaries",
    [("id", .int 434), ("kind", .str "indeterminate"),
     ("kind_detail", .str "2")]⟩,
   ⟨7, 67, 37, "boundaries",
    [("id", .int 2), ("kind", .str "country"), ("kind_detail", .str "2")]⟩,
   ⟨7, 86, 45, "boundaries",
    [("id", .int 437), ("kind", .str "lease_limit"),
     ("kind_detail", .str "2")]⟩,
   ⟨7, 90, 50, "boundaries",
    [("id", .int 32), ("kind", .str "line_of_control"),
     ("kind_detail", .str "2")]⟩,
   ⟨7, 109, 49, "boundaries",
    [("id", .int 436), ("kind", .str "overlay_limit"),
     ("kind_detail", .str "2")]⟩]

/-- The wire spellings of the closed `BoundaryKind` enumeration (§3). -/
def boundaryKindStrings : List String :=
  ["country", "region", "macroregion", "county", "locality",
   "aboriginal_lands", "disputed", "indefinite", "indeterminate",
   "lease_limit", "line_of_control", "overlay_limit"]

/-- A non-empty string of decimal digits. -/
def isDecimalString (s : String) : Bool :=
  !s.isEmpty && s.toList.all Char.isDigit

/-- C9: Wire encoding of properties: in every fixture property map crossing
the assertion interface, `id` is a native signed integer, `kind` is a string
of the closed `BoundaryKind` enumeration, and `kind_detail` is a decimal
string, never a native integer; and matching a string-encoded `kind_detail`
feature value against a native-integer expectation does not pass. -/
theorem wire_encoding_of_properties :
    (∀ a ∈ fixtureAssertions,
      (∃ n, lookupProp a.props "id" = some (.int n)) ∧
      (∃ k, lookupProp a.props "kind" = some (.str k) ∧
        k ∈ boundaryKindStrings) ∧
      (∃ d, lookupProp a.props "kind_detail" = some (.str d) ∧
        isDecimalString d = true)) ∧
    matchFeature ⟨434, [("kind_detail", .str "3")]⟩
        [("kind_detail", .int 3)] ≠ .pass := by
  constructor
  · intro a ha
    fin_cases ha <;>
      exact ⟨⟨_, rfl⟩, ⟨_, rfl, by decide⟩, ⟨_, rfl, by decide⟩⟩
  · decide

/-- Witness for C9: the first fixture assertion's property map has an
integer id, an enumerated kind string and a decimal-string kind_detail. -/
theorem wire_encoding_of_properties_witness :
    (∃ n, lookupProp [("id", PropValue.int 174550914),
        ("kind", PropValue.str "aboriginal_lands"),
        ("kind_detail", PropValue.str "3")] "id" = some (.int n)) ∧
      (∃ k, lookupProp [("id", PropValue.int 174550914),
          ("kind", PropValue.str "aboriginal_lands"),
          ("kind_detail", PropValue.str "3")] "kind" = some (.str k) ∧
        k ∈ boundaryKindStrings) ∧
      (∃ d, lookupProp [("id", PropValue.int 174550914),
          ("kind", PropValue.str "aboriginal_lands"),
          ("kind_detail", PropValue.str "3")] "kind_detail" =
            some (.str d) ∧
        isDecimalString d = true) :=
  wire_encoding_of_properties.1
    ⟨16, 10237, 24570, "boundaries",
     [("id", .int 174550914), ("kind", .str "aboriginal_lands"),
      ("kind_detail", .str "3")]⟩
    (by decide)

/-- The kind-to-kind_detail functional dependency observed across the fixture
corpus. -/
def kindDetailTable : List (String × String) :=
  [("country", "2"), ("region", "4"), ("macroregion", "3"), ("county", "6"),
   ("locality", "8"), ("aboriginal_lands", "3"), ("disputed", "2"),
   ("indefinite", "2"), ("indeterminate", "2"), ("lease_limit", "2"),
   ("line_of_control", "2"), ("overlay_limit", "2")]

/-- C10: Implicit functional dependency of kind_detail on kind: across the
fixture corpus the expected kind determines the expected kind_detail — no
kind appears with two different kind_detail values — and each assertion's
(kind, kind_detail) pair is an entry of the observed mapping (country "2",
region "4", macroregion "3", county "6", locality "8", aboriginal_lands "3",
and each disputed-style kind "2"). -/
theorem kind_determines_kind_detail :
    (∀ a ∈ fixtureAssertions, ∀ b ∈ fixtureAssertions,
      lookupProp a.props "kind" = lookupProp b.props "kind" →
        lookupProp a.props "kind_detail" = lookupProp b.props "kind_detail") ∧
    (∀ a ∈ fixtureAssertions, ∃ k d,
      lookupProp a.props "kind" = some (.str k) ∧
      lookupProp a.props "kind_detail" = some (.str d) ∧
      (k, d) ∈ kindDetailTable) := by
  constructor
  · decide
  · intro a ha
    fin_cases ha <;> exact ⟨_, _, rfl, rfl, by decide⟩

/-- Witness for C10: the two country-kind assertions of the corpus (ids
42298798 and 2) carry the same kind_detail, and the first assertion's pair
is in the observed mapping. -/
theorem kind_determines_kind_detail_witness :
    (lookupProp [("id", PropValue.int 42298798),
        ("kind", PropValue.str "country"),
        ("kind_detail", PropValue.str "2")] "kind_detail" =
      lookupProp [("id", PropValue.int 2), ("kind", PropValue.str "country"),
        ("kind_detail", PropValue.str "2")] "kind_detail") ∧
      (∃ k d,
        lookupProp [("id", PropValue.int 174550914),
          ("kind", PropValue.str "aboriginal_lands"),
          ("kind_detail", PropValue.str "3")] "kind" = some (.str k) ∧
        lookupProp [("id", PropValue.int 174550914),
          ("kind", PropValue.str "aboriginal_lands"),
          ("kind_detail", PropValue.str "3")] "kind_detail" =
            some (.str d) ∧
        (k, d) ∈ kindDetailTable) :=
  ⟨kind_determines_kind_detail.1
      ⟨16, 10417, 25370, "boundaries",
       [("id", .int 42298798), ("kind", .str "country"),
        ("kind_detail", .str "2")]⟩ (by decide)
      ⟨7, 67, 37, "boundaries",
       [("id", .int 2), ("kind", .str "country"),
        ("kind_detail", .str "2")]⟩ (by decide) (by decide),
   kind_determines_kind_detail.2
      ⟨16, 10237, 24570, "boundaries",
       [("id", .int 174550914), ("kind", .str "aboriginal_lands"),
        ("kind_detail", .str "3")]⟩ (by decide)⟩

end VectorDatasource
